import Mathlib

/-!
Verification development for the WorkoutDetect repetition-detection engine.

The embedding mirrors the TypeScript sources:
  * `angleCalculations` (src/unnamed/part_004): `calculateAngle`, `checkBodyAlignment`.
  * `poseDetection.getKeypoint` (src/unnamed/part_002).
  * `exerciseDetection` (src/unnamed/part_003, first document): the threshold table,
    the perspective vote, the calibration / ready / down / up state machine,
    rep completion, ROM, form scoring and form issues.

Numeric conventions: coordinates, angles, times and scores are exact rationals
(the source uses doubles); the two arctangent-based geometry functions return
real numbers, with `atan2 y x` embedded as `Complex.arg ⟨x, y⟩`, which agrees
with JavaScript `Math.atan2` on all real inputs (including `atan2 0 0 = 0`).
The state machine consumes the keypoint-derived signals (primary angle,
vertical position, body height, instantaneous perspective, alignment score)
as exact rational per-frame measurements; `Date.now()` becomes the explicit
`now` field of a measurement.  The `Infinity` initializer of `minY` is
modelled as `Option.none`.  The `peakPosition` / `bottomPosition` fields and
the stored keypoint snapshots are write-only in the source and are omitted.
-/

/-- A pose keypoint: 2D position plus optional confidence score
(source `types` / part_002). -/
structure Keypoint where
  x : ℚ
  y : ℚ
  score : Option ℚ
deriving DecidableEq

/-- JavaScript `Math.atan2 y x`, embedded as the argument of the complex
number `x + y·i`.  `Complex.arg` and `Math.atan2` agree on every input:
both live in (-π, π], both send positive reals to 0, negative reals to π,
and (0, 0) to 0. -/
noncomputable def atan2 (y x : ℝ) : ℝ :=
  Complex.arg ⟨x, y⟩

/-- `calculateAngle(point1, point2, point3)` from part_004 lines 5-21:
difference of the two arctangents of the vectors vertex→p3 and vertex→p1
(the vertex is `p2`), converted to degrees, absolute value, folded to
`360 - angle` when above 180. -/
noncomputable def calculateAngle (p1 p2 p3 : Keypoint) : ℝ :=
  let radians :=
    atan2 ((p3.y : ℝ) - (p2.y : ℝ)) ((p3.x : ℝ) - (p2.x : ℝ)) -
      atan2 ((p1.y : ℝ) - (p2.y : ℝ)) ((p1.x : ℝ) - (p2.x : ℝ))
  let angle := |radians * 180 / Real.pi|
  if angle > 180 then 360 - angle else angle

/-- MoveNet keypoint indices (part_002 `KEYPOINT_INDICES`), the ones the
alignment check reads. -/
def leftShoulderIdx : ℕ := 5
def rightShoulderIdx : ℕ := 6
def leftHipIdx : ℕ := 11
def rightHipIdx : ℕ := 12
def leftAnkleIdx : ℕ := 15
def rightAnkleIdx : ℕ := 16

/-- `getKeypoint` from part_002 lines 94-103.  The source guard is
`if (!keypoint || (keypoint.score && keypoint.score < 0.3)) return null`:
a keypoint is rejected only when its score is *truthy* (present and nonzero)
and below 0.3; an absent score or a score of exactly 0 passes. -/
def getKeypoint (keypoints : List Keypoint) (idx : ℕ) : Option Keypoint :=
  match keypoints.get? idx with
  | none => none
  | some kp =>
    match kp.score with
    | some sc => if sc ≠ 0 ∧ sc < 3/10 then none else some kp
    | none => some kp

/-- `checkBodyAlignment` from part_004 lines 116-132: left-else-right
fallback for shoulder, hip and ankle; 0 when any of the three resolved
parts is unavailable; otherwise `max 0 (100 - 2·|180 - angle|)` for the
shoulder–hip–ankle angle. -/
noncomputable def checkBodyAlignment (keypoints : List Keypoint) : ℝ :=
  let shoulder := getKeypoint keypoints leftShoulderIdx <|> getKeypoint keypoints rightShoulderIdx
  let hip := getKeypoint keypoints leftHipIdx <|> getKeypoint keypoints rightHipIdx
  let ankle := getKeypoint keypoints leftAnkleIdx <|> getKeypoint keypoints rightAnkleIdx
  match shoulder, hip, ankle with
  | some s, some h, some a =>
    let angle := calculateAngle s h a
    max 0 (100 - |180 - angle| * 2)
  | _, _, _ => 0

/-- The vertex `p2` lies strictly between the two endpoints `p1` and `p3`
on the segment joining them (perfect three-point collinearity of a straight
body chain). -/
def VertexBetween (p1 p2 p3 : Keypoint) : Prop :=
  ∃ t : ℚ, 0 < t ∧ t < 1 ∧ (p1.x ≠ p3.x ∨ p1.y ≠ p3.y) ∧
    p2.x = p1.x + t * (p3.x - p1.x) ∧ p2.y = p1.y + t * (p3.y - p1.y)

/-- Three points are collinear (zero cross product). -/
def CollinearPts (p1 p2 p3 : Keypoint) : Prop :=
  (p2.x - p1.x) * (p3.y - p1.y) = (p3.x - p1.x) * (p2.y - p1.y)

/- ===== Exercise detection service (part_003, first document) ===== -/

/-- Camera perspective (source `CameraPerspective`). -/
inductive CameraPerspective where
  | front
  | side
  | unknown
deriving DecidableEq

/-- Exercise phase states (part_003 line 6). -/
inductive ExercisePhase where
  | calibrating
  | ready
  | down
  | up
deriving DecidableEq

/-- Side-view thresholds of one exercise (part_003 lines 35-120). -/
structure SideThresholds where
  upAngle : ℚ
  downAngle : ℚ
  minAngleChange : ℚ
deriving DecidableEq

/-- Front-view thresholds of one exercise. -/
structure FrontThresholds where
  downThreshold : ℚ
  upThreshold : ℚ
deriving DecidableEq

/-- One row of `EXERCISE_THRESHOLDS`. -/
structure ExerciseThresholds where
  side : SideThresholds
  front : FrontThresholds
  minROM : ℚ
deriving DecidableEq

def pushupsTh : ExerciseThresholds :=
  ⟨⟨150, 100, 40⟩, ⟨65/100, 35/100⟩, 50⟩

def pullupsTh : ExerciseThresholds :=
  ⟨⟨70, 150, 50⟩, ⟨7/10, 3/10⟩, 60⟩

def situpsTh : ExerciseThresholds :=
  ⟨⟨80, 140, 40⟩, ⟨6/10, 4/10⟩, 40⟩

def squatsTh : ExerciseThresholds :=
  ⟨⟨160, 100, 40⟩, ⟨6/10, 35/100⟩, 50⟩

def deadliftTh : ExerciseThresholds :=
  ⟨⟨160, 100, 40⟩, ⟨6/10, 35/100⟩, 50⟩

def muscleupTh : ExerciseThresholds :=
  ⟨⟨160, 70, 60⟩, ⟨7/10, 25/100⟩, 70⟩

def dipsTh : ExerciseThresholds :=
  ⟨⟨160, 100, 40⟩, ⟨6/10, 35/100⟩, 50⟩

/-- `EXERCISE_THRESHOLDS[exercise]` as the JavaScript runtime sees it: an
object lookup keyed by the exercise-name string, `undefined` (`none`) for any
key outside the seven supported exercises (part_003 lines 35-120). -/
def EXERCISE_THRESHOLDS (exercise : String) : Option ExerciseThresholds :=
  if exercise = "pushups" then some pushupsTh
  else if exercise = "pullups" then some pullupsTh
  else if exercise = "situps" then some situpsTh
  else if exercise = "squats" then some squatsTh
  else if exercise = "deadlift" then some deadliftTh
  else if exercise = "muscleup" then some muscleupTh
  else if exercise = "dips" then some dipsTh
  else none

/-- The closed set of valid exercise types (source `ExerciseType` union). -/
inductive ExerciseType where
  | pushups
  | pullups
  | situps
  | squats
  | deadlift
  | muscleup
  | dips
deriving DecidableEq

/-- The runtime string of a valid exercise type. -/
def ExerciseType.str : ExerciseType → String
  | .pushups => "pushups"
  | .pullups => "pullups"
  | .situps => "situps"
  | .squats => "squats"
  | .deadlift => "deadlift"
  | .muscleup => "muscleup"
  | .dips => "dips"

/-- The threshold row of a valid exercise type. -/
def thresholdsOf : ExerciseType → ExerciseThresholds
  | .pushups => pushupsTh
  | .pullups => pullupsTh
  | .situps => situpsTh
  | .squats => squatsTh
  | .deadlift => deadliftTh
  | .muscleup => muscleupTh
  | .dips => dipsTh

/-- Detection constants (part_003 lines 27-32).  The source name of the
last one ends in an uppercase acronym and is therefore written camel-case. -/
def MIN_REP_DURATION_MS : ℚ := 400
def MIN_CALIBRATION_FRAMES : ℕ := 15
def MIN_STABLE_FRAMES : ℕ := 5
def minYChangeRatio : ℚ := 15/100

/-- A recorded form issue (source `FormIssue`); severity is one of the
strings "minor" / "moderate" / "major". -/
structure FormIssue where
  issueType : String
  severity : String
  message : String
  recommendation : String
deriving DecidableEq

/-- `ExerciseState` (part_003 lines 8-25).  `minY = none` stands for the
`Infinity` initializer; `peakPosition` / `bottomPosition` (write-only
keypoint snapshots) are omitted. -/
structure EngineState where
  phase : ExercisePhase
  calibrationFrames : ℕ
  baselineAngle : Option ℚ
  baselineY : Option ℚ
  minAngle : ℚ
  maxAngle : ℚ
  minY : Option ℚ
  maxY : ℚ
  repStartTime : ℚ
  lastPhaseChangeTime : ℚ
  formIssues : List FormIssue
  angleHistory : List ℚ
  yHistory : List ℚ
  stableFrames : ℕ
deriving DecidableEq

/-- `getInitialState` (part_003 lines 131-150). -/
def getInitialState : EngineState :=
  { phase := .calibrating
    calibrationFrames := 0
    baselineAngle := none
    baselineY := none
    minAngle := 180
    maxAngle := 0
    minY := none
    maxY := 0
    repStartTime := 0
    lastPhaseChangeTime := 0
    formIssues := []
    angleHistory := []
    yHistory := []
    stableFrames := 0 }

/-- The mutable fields of `ExerciseDetectionService` (part_003 lines
122-129).  `lastKeypoints` is only used for the omitted keypoint
snapshots. -/
structure ServiceState where
  state : EngineState
  currentExercise : String
  repCount : ℕ
  currentPerspective : CameraPerspective
  perspectiveHistory : List CameraPerspective
  frameCount : ℕ
deriving DecidableEq

/-- A fresh service (field initializers of the class). -/
def serviceInit : ServiceState :=
  { state := getInitialState
    currentExercise := "pushups"
    repCount := 0
    currentPerspective := .unknown
    perspectiveHistory := []
    frameCount := 0 }

/-- `reset()` (part_003 lines 157-164). -/
def reset (svc : ServiceState) : ServiceState :=
  { svc with
    state := getInitialState
    repCount := 0
    currentPerspective := .unknown
    perspectiveHistory := []
    frameCount := 0 }

/-- `setExercise(exercise)` (part_003 lines 152-155): store the requested
exercise string, then reset.  No validation is performed. -/
def setExercise (exercise : String) (svc : ServiceState) : ServiceState :=
  reset { svc with currentExercise := exercise }

/-- Count of one perspective value in the vote window
(`history.filter(p => p === x).length`). -/
def countP (p : CameraPerspective) (h : List CameraPerspective) : ℕ :=
  (h.filter (fun q => q = p)).length

/-- `updatePerspective` (part_003 lines 204-222), with the instantaneous
detection result (`detectPerspective(keypoints)`) passed in as `detected`. -/
def updatePerspective (svc : ServiceState) (detected : CameraPerspective) : ServiceState :=
  if detected = .unknown then svc
  else
    let h1 := svc.perspectiveHistory ++ [detected]
    let h2 := if h1.length > 15 then h1.drop 1 else h1
    let frontCount := countP .front h2
    let sideCount := countP .side h2
    let persp :=
      if frontCount > sideCount ∧ frontCount ≥ 5 then CameraPerspective.front
      else if sideCount > frontCount ∧ sideCount ≥ 5 then CameraPerspective.side
      else svc.currentPerspective
    { svc with perspectiveHistory := h2, currentPerspective := persp }

/-- Per-frame signal inputs of the service, as extracted from the keypoints
by the source before the state machine consumes them:
`detected` is `detectPerspective(keypoints)`, `angle` / `yPosition` /
`bodyHeight` come from `getPrimaryValue(keypoints)` (part_003 lines
224-314), `alignmentScore` is `checkBodyAlignment(keypoints)`,
`squatWidths` carries the (ankleWidth, kneeWidth) pair when all four
knee/ankle keypoints are present, `leftKneeAngle` / `rightKneeAngle` are the
joint angles the squat form score reads, and `now` is `Date.now()`. -/
structure Measurement where
  detected : CameraPerspective
  angle : Option ℚ
  yPosition : Option ℚ
  bodyHeight : Option ℚ
  alignmentScore : ℚ
  squatWidths : Option (ℚ × ℚ)
  leftKneeAngle : Option ℚ
  rightKneeAngle : Option ℚ
  now : ℚ
deriving DecidableEq

/-- `isStablePosition` (part_003 lines 316-324): the last five samples stay
within `threshold` of their mean. -/
def isStablePosition (history : List ℚ) (threshold : ℚ) : Bool :=
  if history.length < MIN_STABLE_FRAMES then false
  else
    let recent := history.drop (history.length - MIN_STABLE_FRAMES)
    let avg := recent.sum / (recent.length : ℚ)
    let maxDeviation := (recent.map (fun v => |v - avg|)).foldr max 0
    decide (maxDeviation < threshold)

/-- `checkRepByAngle` (part_003 lines 449-505), returning the updated engine
state together with the `repCompleted` flag.  The keypoint snapshots stored
on phase changes are omitted. -/
def checkRepByAngle (exercise : String) (s : EngineState) (angle : ℚ)
    (t : SideThresholds) (now : ℚ) : EngineState × Bool :=
  let isInverted := exercise = "pullups" ∨ exercise = "muscleup"
  let gateBlocked : Bool :=
    match s.baselineAngle with
    | some b => decide (|angle - b| < t.minAngleChange * (1/2) ∧ s.phase = .ready)
    | none => false
  if gateBlocked then (s, false)
  else if isInverted then
    match s.phase with
    | .ready =>
      if angle < t.upAngle then
        ({ s with phase := .up, repStartTime := now, lastPhaseChangeTime := now }, false)
      else (s, false)
    | .up =>
      if angle > t.downAngle then
        ({ s with phase := .ready, lastPhaseChangeTime := now }, true)
      else (s, false)
    | _ => (s, false)
  else
    match s.phase with
    | .ready =>
      if angle < t.downAngle then
        ({ s with phase := .down, repStartTime := now, lastPhaseChangeTime := now }, false)
      else (s, false)
    | .down =>
      if angle > t.upAngle then
        ({ s with phase := .ready, lastPhaseChangeTime := now }, true)
      else (s, false)
    | _ => (s, false)

/-- `checkRepByPosition` (part_003 lines 507-567).  `minY = none` is the
`Infinity` initializer: then `yRange = maxY - Infinity = -Infinity` and the
minimum-movement guard rejects the frame. -/
def checkRepByPosition (exercise : String) (s : EngineState) (yPosition bodyHeight : ℚ)
    (t : FrontThresholds) (now : ℚ) : EngineState × Bool :=
  match s.baselineY with
  | none => (s, false)
  | some _ =>
    if s.yHistory.length < 10 then (s, false)
    else
      match s.minY with
      | none => (s, false)
      | some mn =>
        let yRange := s.maxY - mn
        if yRange < bodyHeight * minYChangeRatio then (s, false)
        else
          let normalizedY := (yPosition - mn) / yRange
          let isInverted := exercise = "pullups" ∨ exercise = "muscleup"
          if isInverted then
            match s.phase with
            | .ready =>
              if normalizedY < t.upThreshold then
                ({ s with phase := .up, repStartTime := now, lastPhaseChangeTime := now }, false)
              else (s, false)
            | .up =>
              if normalizedY > t.downThreshold then
                ({ s with phase := .ready, lastPhaseChangeTime := now }, true)
              else (s, false)
            | _ => (s, false)
          else
            match s.phase with
            | .ready =>
              if normalizedY > t.downThreshold then
                ({ s with phase := .down, repStartTime := now, lastPhaseChangeTime := now }, false)
              else (s, false)
            | .down =>
              if normalizedY < t.upThreshold then
                ({ s with phase := .ready, lastPhaseChangeTime := now }, true)
              else (s, false)
            | _ => (s, false)

/-- The tracking-mode selection of `checkRepCompletion` (part_003 lines
411-419): side perspective with an angle uses angle tracking; front
perspective with position and body height uses position tracking; otherwise
an available angle is used; otherwise nothing is evaluated. -/
def branchResult (svc : ServiceState) (th : ExerciseThresholds) (m : Measurement) :
    EngineState × Bool :=
  match svc.currentPerspective, m.angle with
  | .side, some a => checkRepByAngle svc.currentExercise svc.state a th.side m.now
  | persp, angleOpt =>
    match persp, m.yPosition, m.bodyHeight with
    | .front, some y, some bh =>
      checkRepByPosition svc.currentExercise svc.state y bh th.front m.now
    | _, _, _ =>
      match angleOpt with
      | some a => checkRepByAngle svc.currentExercise svc.state a th.side m.now
      | none => (svc.state, false)

/-- `addFormIssue` (part_003 lines 698-702): append unless an issue of the
same type is already present. -/
def addFormIssue (issue : FormIssue) (issues : List FormIssue) : List FormIssue :=
  if issues.any (fun i => i.issueType = issue.issueType) then issues
  else issues ++ [issue]

/-- The alignment issue the push-up form check can raise. -/
def alignmentIssue (severity : String) : FormIssue :=
  { issueType := "alignment"
    severity := severity
    message := "Keep your body in a straight line"
    recommendation := "Engage your core and glutes" }

/-- The knee-cave issue the squat form check can raise. -/
def kneeCaveIssue : FormIssue :=
  { issueType := "kneeCave"
    severity := "major"
    message := "Knees caving inward"
    recommendation := "Push knees out over toes" }

/-- `checkForm` (part_003 lines 654-696), acting on the current issue list:
a no-op unless the smoothed perspective is `side`; push-ups compare the
alignment score against 50 (30 for major severity); squats flag knee cave
when the knee separation is below 0.6 of the ankle separation. -/
def checkForm (exercise : String) (persp : CameraPerspective) (m : Measurement)
    (issues : List FormIssue) : List FormIssue :=
  if persp ≠ .side then issues
  else if exercise = "pushups" then
    if m.alignmentScore < 50 then
      addFormIssue (alignmentIssue (if m.alignmentScore < 30 then "major" else "moderate")) issues
    else issues
  else if exercise = "squats" then
    match m.squatWidths with
    | some (ankleWidth, kneeWidth) =>
      if kneeWidth < ankleWidth * (6/10) then addFormIssue kneeCaveIssue issues
      else issues
    | none => issues
  else issues

/-- `calculateROM` (part_003 lines 587-602): side view scales the observed
angle excursion by the ideal angle range and clamps to [0, 100]; front view
scales the observed vertical excursion by the fixed `expectedRange = 80`;
unknown perspective returns the constant 70; an unknown exercise returns
100.  With `minY` still at its `Infinity` initializer the front branch is
`max 0` of `-Infinity`, i.e. 0. -/
def calculateROM (exercise : String) (persp : CameraPerspective) (s : EngineState) : ℚ :=
  match EXERCISE_THRESHOLDS exercise with
  | none => 100
  | some th =>
    match persp with
    | .side =>
      let idealRange := |th.side.upAngle - th.side.downAngle|
      let actualRange := |s.maxAngle - s.minAngle|
      min 100 (max 0 (actualRange / idealRange * 100))
    | .front =>
      match s.minY with
      | none => 0
      | some mn =>
        let range := s.maxY - mn
        let expectedRange : ℚ := 80
        min 100 (max 0 (range / expectedRange * 100))
    | .unknown => 70

/-- Severity-weighted issue deductions shared by `calculateFormScore`. -/
def issuePenalty (issues : List FormIssue) : ℚ :=
  ((issues.filter (fun i => i.severity = "major")).length : ℚ) * 10 +
    ((issues.filter (fun i => i.severity = "moderate")).length : ℚ) * 5 +
    ((issues.filter (fun i => i.severity = "minor")).length : ℚ) * 2

/-- `calculateFormScore` (part_003 lines 604-640).  The `thresholds?.minROM
|| 50` fallback only fires for an unknown exercise (every table row has a
nonzero `minROM`).  The squat knee-symmetry branch reads the left/right knee
joint angles; the push-up branch reads the alignment score. -/
def calculateFormScore (exercise : String) (persp : CameraPerspective) (m : Measurement)
    (rom : ℚ) (issues : List FormIssue) : ℚ :=
  let minROM := ((EXERCISE_THRESHOLDS exercise).map (fun th => th.minROM)).getD 50
  let score : ℚ := 100
  let score := if rom < minROM then score - (minROM - rom) * (4/10) else score
  let score :=
    if persp = .side then
      if exercise = "pushups" then
        if m.alignmentScore < 70 then score - (70 - m.alignmentScore) * (3/10) else score
      else if exercise = "squats" then
        match m.leftKneeAngle, m.rightKneeAngle with
        | some lk, some rk =>
          let kneeSymmetry := |lk - rk|
          if kneeSymmetry > 20 then score - kneeSymmetry * (2/10) else score
        | _, _ => score
      else score
    else score
  let score := score - issuePenalty issues
  max 0 (min 100 score)

/-- `isRepValid` (part_003 lines 642-652). -/
def isRepValid (exercise : String) (rom formScore duration : ℚ)
    (issues : List FormIssue) : Bool :=
  let minROM := ((EXERCISE_THRESHOLDS exercise).map (fun th => th.minROM)).getD 50
  let romValid := decide (rom ≥ minROM * (6/10))
  let formValid := decide (formScore ≥ 50)
  let durationValid := decide (duration ≥ MIN_REP_DURATION_MS)
  let noMajorIssues := decide ((issues.filter (fun i => i.severity = "major")).length = 0)
  romValid && formValid && durationValid && noMajorIssues

/-- A completed-repetition record (source `RepData`).  The joint-angle
snapshot lives in the keypoint plane and is omitted; `timestamp` is the
frame's `Date.now()`. -/
structure RepData where
  repNumber : ℕ
  timestamp : ℚ
  duration : ℚ
  isValid : Bool
  formScore : ℚ
  rangeOfMotion : ℚ
  issues : List String
deriving DecidableEq

/-- `createRepData` (part_003 lines 569-585), evaluated on the post-branch
engine state `s`. -/
def createRepData (svc : ServiceState) (s : EngineState) (m : Measurement)
    (duration : ℚ) : RepData :=
  let rom := calculateROM svc.currentExercise svc.currentPerspective s
  let formScore := calculateFormScore svc.currentExercise svc.currentPerspective m rom s.formIssues
  { repNumber := svc.repCount + 1
    timestamp := m.now
    duration := duration
    isValid := isRepValid svc.currentExercise rom formScore duration s.formIssues
    formScore := formScore
    rangeOfMotion := rom
    issues := s.formIssues.map (fun i => i.message) }

/-- `checkRepCompletion` (part_003 lines 396-447): threshold lookup, 150 ms
debounce, tracking-mode branch, 400 ms minimum-duration gate, record
creation with counter increment and per-rep reset, otherwise the continuous
form check. -/
def checkRepCompletion (svc : ServiceState) (m : Measurement) :
    ServiceState × Option RepData :=
  match EXERCISE_THRESHOLDS svc.currentExercise with
  | none => (svc, none)
  | some th =>
    if m.now - svc.state.lastPhaseChangeTime < 150 then (svc, none)
    else
      let res := branchResult svc th m
      let s1 := res.1
      if res.2 then
        let repDuration := m.now - s1.repStartTime
        if repDuration < MIN_REP_DURATION_MS then
          ({ svc with state := s1 }, none)
        else
          let repData := createRepData svc s1 m repDuration
          let s2 := { s1 with
            minAngle := 180, maxAngle := 0, minY := none, maxY := 0,
            formIssues := [] }
          ({ svc with state := s2, repCount := svc.repCount + 1 }, some repData)
      else
        let issues := checkForm svc.currentExercise svc.currentPerspective m s1.formIssues
        ({ svc with state := { s1 with formIssues := issues } }, none)

/-- Append one sample to a bounded history (push, then shift once when the
length exceeds the cap — part_003 lines 333-345). -/
def pushHistory (cap : ℕ) (h : List ℚ) (v : ℚ) : List ℚ :=
  let h1 := h ++ [v]
  if h1.length > cap then h1.drop 1 else h1

/-- Mean of the last five samples (the baseline computation of the
calibration branch). -/
def recentMean (h : List ℚ) : ℚ :=
  let recent := h.drop (h.length - MIN_STABLE_FRAMES)
  recent.sum / (recent.length : ℚ)

/-- The history-tracking step of `detectRep` (part_003 lines 332-345):
push the angle / vertical-position samples into their bounded histories. -/
def trackHistories (s : EngineState) (m : Measurement) : EngineState :=
  let s : EngineState :=
    match m.angle with
    | some a => { s with angleHistory := pushHistory 60 s.angleHistory a }
    | none => s
  match m.yPosition with
  | some y => { s with yHistory := pushHistory 60 s.yHistory y }
  | none => s

/-- The calibration branch of `detectRep` (part_003 lines 347-378): wait for
enough stable samples, then record the baselines and become `ready`. -/
def calibrationStep (svc : ServiceState) (s : EngineState) (m : Measurement) :
    ServiceState × Option RepData :=
  let s : EngineState := { s with calibrationFrames := s.calibrationFrames + 1 }
  let isAngleStable :=
    s.angleHistory.length ≥ MIN_CALIBRATION_FRAMES && isStablePosition s.angleHistory 10
  let isYStable :=
    s.yHistory.length ≥ MIN_CALIBRATION_FRAMES && isStablePosition s.yHistory 15
  let calibrated :=
    (decide (svc.currentPerspective = .side) && isAngleStable) ||
      (decide (svc.currentPerspective = .front) && isYStable) ||
      (decide (svc.currentPerspective = .unknown) && (isAngleStable || isYStable))
  if calibrated then
    let s : EngineState :=
      match m.angle with
      | some _ => { s with baselineAngle := some (recentMean s.angleHistory) }
      | none => s
    let s : EngineState :=
      match m.yPosition with
      | some _ => { s with baselineY := some (recentMean s.yHistory) }
      | none => s
    ({ svc with state := { s with phase := .ready, lastPhaseChangeTime := m.now } }, none)
  else
    ({ svc with state := s }, none)

/-- The extrema-tracking step of `detectRep` (part_003 lines 380-388):
update the running min/max of the tracked signals. -/
def trackExtrema (s : EngineState) (m : Measurement) : EngineState :=
  let s : EngineState :=
    match m.angle with
    | some a => { s with minAngle := min s.minAngle a, maxAngle := max s.maxAngle a }
    | none => s
  match m.yPosition with
  | some y =>
    { s with
      minY := some (match s.minY with | none => y | some mn => min mn y)
      maxY := max s.maxY y }
  | none => s

/-- `detectRep` (part_003 lines 326-394): frame counting, perspective vote,
history tracking, the calibration branch, extrema tracking and
`checkRepCompletion`. -/
def detectRep (svc : ServiceState) (m : Measurement) : ServiceState × Option RepData :=
  let svc : ServiceState := { svc with frameCount := svc.frameCount + 1 }
  let svc := updatePerspective svc m.detected
  let s := trackHistories svc.state m
  if s.phase = .calibrating then calibrationStep svc s m
  else checkRepCompletion { svc with state := trackExtrema s m } m

/-- Feed a list of frames through `detectRep`, collecting every emitted
repetition record. -/
def runDetect (svc : ServiceState) (frames : List Measurement) :
    ServiceState × List RepData :=
  match frames with
  | [] => (svc, [])
  | f :: rest =>
    let step := detectRep svc f
    let tail := runDetect step.1 rest
    (tail.1, (match step.2 with | some r => [r] | none => []) ++ tail.2)

/- ===== Concrete inputs and spec-side definitions used by the theorems ===== -/

/-- A synthetic frame carrying only the primary-angle signal (instantaneous
perspective detection inconclusive, no vertical-position signal). -/
def angleFrame (a t : ℚ) : Measurement :=
  { detected := .unknown
    angle := some a
    yPosition := none
    bodyHeight := none
    alignmentScore := 100
    squatWidths := none
    leftKneeAngle := none
    rightKneeAngle := none
    now := t }

/-- Resting (baseline) angle of the canonical synthetic repetition for each
exercise type. -/
def startAngle : ExerciseType → ℚ
  | .pushups => 170
  | .pullups => 170
  | .situps => 160
  | .squats => 175
  | .deadlift => 175
  | .muscleup => 175
  | .dips => 175

/-- Angle crossing the phase-entry threshold of the exercise. -/
def entryAngle : ExerciseType → ℚ
  | .pushups => 90
  | .pullups => 60
  | .situps => 70
  | .squats => 90
  | .deadlift => 90
  | .muscleup => 60
  | .dips => 90

/-- Angle crossing back over the return threshold of the exercise. -/
def exitAngle : ExerciseType → ℚ
  | .pushups => 160
  | .pullups => 160
  | .situps => 90
  | .squats => 170
  | .deadlift => 170
  | .muscleup => 80
  | .dips => 170

/-- The canonical synthetic frame sequence of one full repetition: fifteen
stable calibration frames at the resting angle, then the tracked signal moves
monotonically across the entry threshold and back across the return
threshold.  Frames are 1000 ms apart, so the two threshold crossings are
1000 ms ≥ 400 ms (the minimum rep duration) apart. -/
def c2Frames (e : ExerciseType) : List Measurement :=
  ((List.range 15).map (fun i => angleFrame (startAngle e) (1000 * ((i : ℚ) + 1)))) ++
    [angleFrame (entryAngle e) 16000, angleFrame (exitAngle e) 17000]

/-- The range-of-motion formula exactly as claim C1 states it:
`clamp(100 × |observed extrema delta| / ideal extrema delta, 0, 100)` where
the ideal extrema delta is `|upThreshold - downThreshold|` of the tracking
mode active for the repetition — angle thresholds in side view, position
thresholds in front view.  (`minY = none` is the no-vertical-sample state.) -/
def romSpecC1 (th : ExerciseThresholds) (persp : CameraPerspective) (s : EngineState) : ℚ :=
  match persp with
  | .side =>
    min 100 (max 0 (100 * |s.maxAngle - s.minAngle| / |th.side.upAngle - th.side.downAngle|))
  | .front =>
    match s.minY with
    | none => 0
    | some mn =>
      min 100 (max 0 (100 * |s.maxY - mn| / |th.front.upThreshold - th.front.downThreshold|))
  | .unknown => 0

/-- Engine state after a completed front-view repetition whose vertical
excursion was 40 pixels. -/
def sC1 : EngineState :=
  { getInitialState with minY := some 0, maxY := 40 }

/-- A side-view service mid-repetition (phase `down`, baseline 170°, previous
phase change at t = 1100, repetition started at t = 1100). -/
def svcC3w : ServiceState :=
  { state :=
      { getInitialState with
        phase := .down
        baselineAngle := some 170
        minAngle := 90
        maxAngle := 170
        repStartTime := 1100
        lastPhaseChangeTime := 1100 }
    currentExercise := "pushups"
    repCount := 3
    currentPerspective := .side
    perspectiveHistory := []
    frameCount := 20 }

/-- A frame at t = 1300 whose angle (160°) crosses the push-up return
threshold, closing the cycle only 200 ms after it began. -/
def mC3w : Measurement := angleFrame 160 1300

/-- A service that has seen four consecutive instantaneous `front`
classifications and still reports `unknown`. -/
def svcC6w : ServiceState :=
  { serviceInit with perspectiveHistory := [.front, .front, .front, .front] }

/-- A service in front-tracking-capable mid-rep state (phase `down`,
calibrated vertical baseline, ten-sample y history, observed vertical range
0–100) whose smoothed perspective is still `unknown`. -/
def svcC7x : ServiceState :=
  { state :=
      { getInitialState with
        phase := .down
        baselineY := some 50
        minY := some 0
        maxY := 100
        yHistory := [50, 50, 50, 50, 50, 50, 50, 50, 50, 50]
        repStartTime := 0
        lastPhaseChangeTime := 0 }
    currentExercise := "pushups"
    repCount := 0
    currentPerspective := .unknown
    perspectiveHistory := []
    frameCount := 30 }

/-- A frame with no angle but a vertical position (5) and body height (100)
that would close the front-view cycle. -/
def mC7x : Measurement :=
  { detected := .unknown
    angle := none
    yPosition := some 5
    bodyHeight := some 100
    alignmentScore := 100
    squatWidths := none
    leftKneeAngle := none
    rightKneeAngle := none
    now := 10000 }

/-- A calibrated side-view push-up service sitting in the `ready` phase
(no repetition in progress), baseline 170°. -/
def svcC8x : ServiceState :=
  { state :=
      { getInitialState with
        phase := .ready
        baselineAngle := some 170
        lastPhaseChangeTime := 0 }
    currentExercise := "pushups"
    repCount := 0
    currentPerspective := .side
    perspectiveHistory := [.side, .side, .side, .side, .side]
    frameCount := 40 }

/-- A frame near the baseline (171°, no phase transition) with a poor body
alignment score of 30. -/
def mC8x : Measurement :=
  { detected := .unknown
    angle := some 171
    yPosition := none
    bodyHeight := none
    alignmentScore := 30
    squatWidths := none
    leftKneeAngle := none
    rightKneeAngle := none
    now := 1000 }

/-- A keypoint at the origin with confidence exactly 0. -/
def kp0 : Keypoint := ⟨0, 0, some 0⟩

/-- Seventeen keypoints, all with confidence exactly 0 (below the 0.3
floor); shoulder (index 5) at (0,0), left hip (index 11) at (1,0), left
ankle (index 15) at (2,0) — a perfectly straight chain. -/
def kpsC10 : List Keypoint :=
  [kp0, kp0, kp0, kp0, kp0,
   kp0, kp0, kp0, kp0, kp0,
   kp0, ⟨1, 0, some 0⟩, kp0, kp0, kp0,
   ⟨2, 0, some 0⟩, kp0]

/-- Collinear test points for the angle function: (1,0), (0,0), (2,0) —
collinear with both endpoints on the same side of the vertex — and (-1,0),
placing the vertex strictly between (1,0) and (-1,0). -/
def kC5a : Keypoint := ⟨1, 0, none⟩

def kC5v : Keypoint := ⟨0, 0, none⟩

def kC5b : Keypoint := ⟨2, 0, none⟩

def kC5n : Keypoint := ⟨-1, 0, none⟩

/- `Rat.add`, `Rat.mul`, `Rat.sub`, `Rat.inv` and `Rat.ofScientific` are
`@[irreducible]` in Batteries; re-open them so that concrete rational
computations can be settled by `decide` (the kernel ignores reducibility
attributes, so checked proofs are unaffected). -/
unseal Rat.add Rat.mul Rat.sub Rat.inv Rat.ofScientific

/- ===== Helper lemmas ===== -/

lemma mk_eq_ofReal (x : ℝ) : (⟨x, 0⟩ : ℂ) = (x : ℂ) := by
  apply Complex.ext <;> simp

lemma atan2_zero_of_pos {x : ℝ} (hx : 0 ≤ x) : atan2 0 x = 0 := by
  rw [atan2, mk_eq_ofReal, Complex.arg_ofReal_of_nonneg hx]

lemma atan2_zero_of_neg {x : ℝ} (hx : x < 0) : atan2 0 x = Real.pi := by
  rw [atan2, mk_eq_ofReal, Complex.arg_ofReal_of_neg hx]

/-- For a nonzero complex number, the arguments of `z` and `-z` differ by
exactly π in absolute value. -/
lemma abs_arg_sub_arg_neg {z : ℂ} (hz : z ≠ 0) :
    |Complex.arg z - Complex.arg (-z)| = Real.pi := by
  rcases lt_trichotomy z.im 0 with him | him | him
  · rw [Complex.arg_neg_eq_arg_add_pi_of_im_neg him]
    simpa using Real.pi_nonneg
  · have hre : z.re ≠ 0 := by
      intro h0
      exact hz (Complex.ext h0 him)
    have hz' : z = ((z.re : ℝ) : ℂ) := by
      apply Complex.ext <;> simp [him]
    rcases lt_trichotomy z.re 0 with hr | hr | hr
    · rw [hz', Complex.arg_ofReal_of_neg hr, ← Complex.ofReal_neg,
        Complex.arg_ofReal_of_nonneg (by linarith)]
      simpa using Real.pi_nonneg
    · exact absurd hr hre
    · rw [hz', Complex.arg_ofReal_of_nonneg (le_of_lt hr), ← Complex.ofReal_neg,
        Complex.arg_ofReal_of_neg (by linarith)]
      rw [zero_sub, abs_neg]
      simpa using Real.pi_nonneg
  · rw [Complex.arg_neg_eq_arg_sub_pi_of_im_pos him]
    simpa using Real.pi_nonneg

/- ===== C2 ===== -/

set_option maxRecDepth 1000000 in
/-- C2: for every valid exercise type, feeding the synthetic frame sequence
`c2Frames` — whose tracked signal moves monotonically through one full phase
cycle, crossing the entry threshold and the return threshold 1000 ms ≥
400 ms (the minimum rep duration) apart — makes `detectRep` emit exactly one
repetition record over the whole sequence and increases the cumulative rep
counter by exactly 1 (from 0 to 1). -/
theorem detectRep_one_cycle_emits_one_rep :
    ∀ e : ExerciseType,
      (runDetect (setExercise e.str serviceInit) (c2Frames e)).2.length = 1 ∧
        (runDetect (setExercise e.str serviceInit) (c2Frames e)).1.repCount =
          (setExercise e.str serviceInit).repCount + 1 := by
  intro e
  cases e <;> decide

/- ===== C3 ===== -/

lemma checkRepByAngle_phase_of_completed (e : String) (s : EngineState) (a : ℚ)
    (t : SideThresholds) (now : ℚ) :
    (checkRepByAngle e s a t now).2 = true →
      (checkRepByAngle e s a t now).1.phase = .ready := by
  unfold checkRepByAngle
  repeat' split <;> (try simp_all)

lemma checkRepByPosition_phase_of_completed (e : String) (s : EngineState)
    (y bh : ℚ) (t : FrontThresholds) (now : ℚ) :
    (checkRepByPosition e s y bh t now).2 = true →
      (checkRepByPosition e s y bh t now).1.phase = .ready := by
  unfold checkRepByPosition
  repeat' split <;> (try simp_all)

lemma branchResult_phase_of_completed (svc : ServiceState) (th : ExerciseThresholds)
    (m : Measurement) :
    (branchResult svc th m).2 = true → (branchResult svc th m).1.phase = .ready := by
  unfold branchResult
  repeat' split
  any_goals exact checkRepByAngle_phase_of_completed _ _ _ _ _
  any_goals exact checkRepByPosition_phase_of_completed _ _ _ _ _ _
  simp

/-- C3: whenever a phase cycle closes (the tracking branch reports
completion, which always sets the phase back to `ready`) but the elapsed
time since the repetition started is below the 400 ms minimum rep duration,
`checkRepCompletion` returns no repetition record for that frame, leaves the
cumulative rep counter unchanged, and the phase nevertheless remains
returned to `ready`. -/
theorem checkRepCompletion_too_fast_is_discarded
    (svc : ServiceState) (m : Measurement) (th : ExerciseThresholds)
    (hth : EXERCISE_THRESHOLDS svc.currentExercise = some th)
    (hdeb : ¬ (m.now - svc.state.lastPhaseChangeTime < 150))
    (hdone : (branchResult svc th m).2 = true)
    (hfast : m.now - (branchResult svc th m).1.repStartTime < MIN_REP_DURATION_MS) :
    (checkRepCompletion svc m).2 = none ∧
      (checkRepCompletion svc m).1.repCount = svc.repCount ∧
      (checkRepCompletion svc m).1.state.phase = .ready := by
  have hphase := branchResult_phase_of_completed svc th m hdone
  simp only [checkRepCompletion, hth, if_neg hdeb, hdone, if_true, if_pos hfast]
  exact ⟨trivial, trivial, hphase⟩

/-- C3 witness: a push-up service in the `down` phase whose cycle closes at
t = 1300 only 200 ms after the repetition started: no record, counter still
at its previous value, phase back at `ready`. -/
theorem checkRepCompletion_too_fast_is_discarded_witness :
    (checkRepCompletion svcC3w mC3w).2 = none ∧
      (checkRepCompletion svcC3w mC3w).1.repCount = svcC3w.repCount ∧
      (checkRepCompletion svcC3w mC3w).1.state.phase = .ready :=
  checkRepCompletion_too_fast_is_discarded svcC3w mC3w pushupsTh
    (by decide) (by decide) (by decide) (by decide)

/- ===== C4 ===== -/

lemma calibrationStep_snd (svc : ServiceState) (s : EngineState) (m : Measurement) :
    (calibrationStep svc s m).2 = none := by
  dsimp only [calibrationStep]
  repeat' split <;> (try rfl)

lemma updatePerspective_currentExercise (svc : ServiceState) (d : CameraPerspective) :
    (updatePerspective svc d).currentExercise = svc.currentExercise := by
  unfold updatePerspective
  split <;> rfl

lemma checkRepCompletion_none_of_unknown_exercise (svc : ServiceState) (m : Measurement)
    (h : EXERCISE_THRESHOLDS svc.currentExercise = none) :
    checkRepCompletion svc m = (svc, none) := by
  unfold checkRepCompletion
  rw [h]

/-- C4 amended: `setExercise` performs no runtime validation.  An exercise
string outside the closed supported set is accepted and stored (with the
usual full reset), and the engine then silently defaults to emitting no
repetitions: the threshold lookup yields nothing, so `checkRepCompletion`
and `detectRep` return no record on every frame.  The closed set is enforced
only statically by the TypeScript union type of `setExercise`'s argument. -/
theorem setExercise_no_runtime_rejection
    (name : String) (svc svc2 : ServiceState) (m : Measurement)
    (hunk : EXERCISE_THRESHOLDS name = none)
    (hcur : svc2.currentExercise = name) :
    (setExercise name svc).currentExercise = name ∧
      (checkRepCompletion svc2 m).2 = none ∧
      (detectRep svc2 m).2 = none := by
  have hth : EXERCISE_THRESHOLDS svc2.currentExercise = none := by rw [hcur]; exact hunk
  refine ⟨rfl, ?_, ?_⟩
  · rw [checkRepCompletion_none_of_unknown_exercise svc2 m hth]
  · dsimp only [detectRep]
    split
    · exact calibrationStep_snd _ _ _
    · rw [checkRepCompletion_none_of_unknown_exercise _ m ?_]
      rw [updatePerspective_currentExercise]
      exact hth

/-- C4 witness: the unknown exercise type "yoga" is accepted by
`setExercise` and leads to no emitted repetition on a subsequent frame. -/
theorem setExercise_no_runtime_rejection_witness :
    (setExercise ("yoga") serviceInit).currentExercise = "yoga" ∧
      (checkRepCompletion (setExercise ("yoga") serviceInit) (angleFrame 90 1000)).2 = none ∧
      (detectRep (setExercise ("yoga") serviceInit) (angleFrame 90 1000)).2 = none :=
  setExercise_no_runtime_rejection "yoga" serviceInit (setExercise ("yoga") serviceInit)
    (angleFrame 90 1000) (by decide) rfl

/-- C4 counterexample: requesting the exercise type "yoga" — outside the
closed supported set — does not fail fast: `setExercise` accepts and stores
the configuration, the threshold table has no entry for it, and the engine
silently defaults to returning no repetition, contradicting the claim that
the configuration is rejected. -/
theorem setExercise_unknown_accepted_counterexample :
    (setExercise ("yoga") serviceInit).currentExercise = "yoga" ∧
      EXERCISE_THRESHOLDS "yoga" = none ∧
      (checkRepCompletion (setExercise ("yoga") serviceInit) (angleFrame 90 1000)).2 = none := by
  decide

/- ===== C6 ===== -/

lemma countP_cons (p q : CameraPerspective) (t : List CameraPerspective) :
    countP p (q :: t) = countP p t + (if q = p then 1 else 0) := by
  by_cases h : q = p <;> simp [countP, List.filter_cons, h]

lemma length_eq_countP_add :
    ∀ h : List CameraPerspective, (∀ p ∈ h, p ≠ CameraPerspective.unknown) →
      h.length = countP .front h + countP .side h := by
  intro h
  induction h with
  | nil => intro; rfl
  | cons a t ih =>
    intro hinv
    have ht : ∀ p ∈ t, p ≠ CameraPerspective.unknown := fun p hp => hinv p (by simp [hp])
    have ha : a ≠ CameraPerspective.unknown := hinv a (by simp)
    have hlen := ih ht
    cases a with
    | front => rw [List.length_cons, countP_cons, countP_cons]; simp [hlen]; omega
    | side => rw [List.length_cons, countP_cons, countP_cons]; simp [hlen]; omega
    | unknown => exact absurd rfl ha

lemma updatePerspective_eq (svc : ServiceState) (d : CameraPerspective)
    (hd : ¬ d = CameraPerspective.unknown) :
    updatePerspective svc d =
      (let h1 := svc.perspectiveHistory ++ [d]
       let h2 := if h1.length > 15 then h1.drop 1 else h1
       { svc with
         perspectiveHistory := h2
         currentPerspective :=
           if countP .front h2 > countP .side h2 ∧ countP .front h2 ≥ 5 then
             CameraPerspective.front
           else if countP .side h2 > countP .front h2 ∧ countP .side h2 ≥ 5 then
             CameraPerspective.side
           else svc.currentPerspective }) := by
  unfold updatePerspective
  rw [if_neg hd]

/-- C6: the externally visible perspective changes only when one category
holds a strict majority of the (unknown-free) sliding vote window and that
category's count is at least 5; in every other situation `updatePerspective`
retains the previously reported perspective (so a change implies both
conditions on the updated window). -/
theorem currentPerspective_changes_only_with_majority
    (svc : ServiceState) (d : CameraPerspective)
    (hinv : ∀ p ∈ svc.perspectiveHistory, p ≠ CameraPerspective.unknown)
    (hch : (updatePerspective svc d).currentPerspective ≠ svc.currentPerspective) :
    5 ≤ countP (updatePerspective svc d).currentPerspective
          (updatePerspective svc d).perspectiveHistory ∧
      2 * countP (updatePerspective svc d).currentPerspective
          (updatePerspective svc d).perspectiveHistory >
        (updatePerspective svc d).perspectiveHistory.length := by
  have main : ∀ (h2 : List CameraPerspective) (cur : CameraPerspective),
      (∀ p ∈ h2, p ≠ CameraPerspective.unknown) →
      ∀ P, P = (if countP .front h2 > countP .side h2 ∧ countP .front h2 ≥ 5 then
                  CameraPerspective.front
                else if countP .side h2 > countP .front h2 ∧ countP .side h2 ≥ 5 then
                  CameraPerspective.side
                else cur) →
      P ≠ cur → 5 ≤ countP P h2 ∧ 2 * countP P h2 > h2.length := by
    intro h2 cur hinv2 P hP hne
    have hlen := length_eq_countP_add h2 hinv2
    by_cases c1 : countP .front h2 > countP .side h2 ∧ countP .front h2 ≥ 5
    · rw [if_pos c1] at hP
      subst hP
      exact ⟨c1.2, by omega⟩
    · rw [if_neg c1] at hP
      by_cases c2 : countP .side h2 > countP .front h2 ∧ countP .side h2 ≥ 5
      · rw [if_pos c2] at hP
        subst hP
        exact ⟨c2.2, by omega⟩
      · rw [if_neg c2] at hP
        exact absurd hP hne
  by_cases hd : d = CameraPerspective.unknown
  · exfalso
    apply hch
    rw [updatePerspective, if_pos hd]
  · have hinv2 : ∀ p ∈ (if (svc.perspectiveHistory ++ [d]).length > 15 then
        (svc.perspectiveHistory ++ [d]).drop 1 else svc.perspectiveHistory ++ [d]),
        p ≠ CameraPerspective.unknown := by
      intro p hp
      have hp' : p ∈ svc.perspectiveHistory ++ [d] := by
        by_cases hl : (svc.perspectiveHistory ++ [d]).length > 15
        · rw [if_pos hl] at hp
          exact List.mem_of_mem_drop hp
        · rwa [if_neg hl] at hp
      rcases List.mem_append.mp hp' with h | h
      · exact hinv p h
      · rw [List.mem_singleton.mp h]
        exact hd
    rw [updatePerspective_eq svc d hd] at hch ⊢
    exact main _ _ hinv2 _ rfl hch

/-- C6 witness: four stored `front` votes plus a fifth detected `front` flip
the reported perspective from `unknown` to `front`: the new window holds 5
front votes out of 5. -/
theorem currentPerspective_changes_only_with_majority_witness :
    5 ≤ countP (updatePerspective svcC6w .front).currentPerspective
          (updatePerspective svcC6w .front).perspectiveHistory ∧
      2 * countP (updatePerspective svcC6w .front).currentPerspective
          (updatePerspective svcC6w .front).perspectiveHistory >
        (updatePerspective svcC6w .front).perspectiveHistory.length :=
  currentPerspective_changes_only_with_majority svcC6w .front (by decide) (by decide)

/- ===== C7 ===== -/

/-- C7 counterexample: with the smoothed perspective `unknown` and no angle
available, the position signal is ignored even though `checkRepByPosition`
would report a completed cycle on exactly these inputs: `checkRepCompletion`
returns no record and leaves the phase at `down` — there is no fallback to
position-based tracking. -/
theorem unknown_perspective_no_position_fallback_counterexample :
    svcC7x.currentPerspective = .unknown ∧
      mC7x.angle = none ∧
      (checkRepByPosition svcC7x.currentExercise svcC7x.state 5 100 pushupsTh.front
          mC7x.now).2 = true ∧
      (checkRepCompletion svcC7x mC7x).2 = none ∧
      (checkRepCompletion svcC7x mC7x).1.state.phase = .down := by
  decide

/-- C7 amended: on every frame processed while the smoothed perspective is
`unknown`, the state machine evaluates phase transitions with the
angle-based thresholds whenever an angle is available; when the angle is
unavailable it evaluates no transition at all for that frame — the frame
yields no repetition and leaves the phase unchanged even when a normalized
vertical position is available (there is no position fallback). -/
theorem unknown_perspective_prefers_angle_no_position_fallback
    (svc : ServiceState) (m : Measurement) (th : ExerciseThresholds)
    (hp : svc.currentPerspective = .unknown) :
    (∀ a, m.angle = some a →
        branchResult svc th m =
          checkRepByAngle svc.currentExercise svc.state a th.side m.now) ∧
      (m.angle = none →
        (checkRepCompletion svc m).2 = none ∧
          (checkRepCompletion svc m).1.state.phase = svc.state.phase) := by
  constructor
  · intro a ha
    unfold branchResult
    rw [hp, ha]
  · intro ha
    have hbr : ∀ th' : ExerciseThresholds, branchResult svc th' m = (svc.state, false) := by
      intro th'
      unfold branchResult
      rw [hp, ha]
    unfold checkRepCompletion
    split
    · exact ⟨rfl, rfl⟩
    · next th2 heq =>
      split
      · exact ⟨rfl, rfl⟩
      · rw [hbr th2]
        exact ⟨rfl, rfl⟩

/-- C7 witness: the amended theorem applied to the concrete
unknown-perspective, angle-free frame. -/
theorem unknown_perspective_prefers_angle_no_position_fallback_witness :
    (checkRepCompletion svcC7x mC7x).2 = none ∧
      (checkRepCompletion svcC7x mC7x).1.state.phase = svcC7x.state.phase :=
  (unknown_perspective_prefers_angle_no_position_fallback svcC7x mC7x pushupsTh rfl).2 rfl

/- ===== C8 ===== -/

lemma checkRepByAngle_formIssues (e : String) (s : EngineState) (a : ℚ)
    (t : SideThresholds) (now : ℚ) :
    (checkRepByAngle e s a t now).1.formIssues = s.formIssues := by
  dsimp only [checkRepByAngle]
  repeat' split <;> (try rfl)

lemma checkRepByPosition_formIssues (e : String) (s : EngineState) (y bh : ℚ)
    (t : FrontThresholds) (now : ℚ) :
    (checkRepByPosition e s y bh t now).1.formIssues = s.formIssues := by
  dsimp only [checkRepByPosition]
  repeat' split <;> (try rfl)

lemma branchResult_formIssues (svc : ServiceState) (th : ExerciseThresholds)
    (m : Measurement) :
    (branchResult svc th m).1.formIssues = svc.state.formIssues := by
  dsimp only [branchResult]
  repeat' split
  any_goals exact checkRepByAngle_formIssues _ _ _ _ _
  any_goals exact checkRepByPosition_formIssues _ _ _ _ _ _
  rfl

lemma checkForm_not_side (e : String) (persp : CameraPerspective) (m : Measurement)
    (issues : List FormIssue) (h : persp ≠ .side) :
    checkForm e persp m issues = issues := by
  unfold checkForm
  rw [if_pos h]

lemma checkRepCompletion_new_issue
    (svc : ServiceState) (m : Measurement) (i : FormIssue)
    (hnew : i ∈ (checkRepCompletion svc m).1.state.formIssues)
    (hold : i ∉ svc.state.formIssues) :
    svc.currentPerspective = .side ∧
      (checkRepCompletion svc m).2 = none ∧
      ¬ (m.now - svc.state.lastPhaseChangeTime < 150) := by
  unfold checkRepCompletion at hnew ⊢
  cases hth : EXERCISE_THRESHOLDS svc.currentExercise with
  | none => rw [hth] at hnew; exact absurd hnew hold
  | some th =>
    rw [hth] at hnew
    dsimp only at hnew ⊢
    by_cases hdeb : m.now - svc.state.lastPhaseChangeTime < 150
    · rw [if_pos hdeb] at hnew
      exact absurd hnew hold
    · rw [if_neg hdeb] at hnew ⊢
      cases hcomp : (branchResult svc th m).2 with
      | true =>
        by_cases hfast : m.now - (branchResult svc th m).1.repStartTime < MIN_REP_DURATION_MS
        · simp only [hcomp, if_true, if_pos hfast] at hnew
          rw [branchResult_formIssues] at hnew
          exact absurd hnew hold
        · simp only [hcomp, if_true, if_neg hfast] at hnew
          simp at hnew
      | false =>
        simp only [hcomp, Bool.false_eq_true, if_false] at hnew ⊢
        by_cases hside : svc.currentPerspective = .side
        · exact ⟨hside, trivial, hdeb⟩
        · rw [branchResult_formIssues, checkForm_not_side _ _ _ _ hside] at hnew
          exact absurd hnew hold

lemma trackHistories_phase (s : EngineState) (m : Measurement) :
    (trackHistories s m).phase = s.phase := by
  unfold trackHistories
  cases m.angle <;> cases m.yPosition <;> rfl

lemma trackHistories_formIssues (s : EngineState) (m : Measurement) :
    (trackHistories s m).formIssues = s.formIssues := by
  unfold trackHistories
  cases m.angle <;> cases m.yPosition <;> rfl

lemma trackHistories_lastChange (s : EngineState) (m : Measurement) :
    (trackHistories s m).lastPhaseChangeTime = s.lastPhaseChangeTime := by
  unfold trackHistories
  cases m.angle <;> cases m.yPosition <;> rfl

lemma trackExtrema_formIssues (s : EngineState) (m : Measurement) :
    (trackExtrema s m).formIssues = s.formIssues := by
  unfold trackExtrema
  cases m.angle <;> cases m.yPosition <;> rfl

lemma trackExtrema_lastChange (s : EngineState) (m : Measurement) :
    (trackExtrema s m).lastPhaseChangeTime = s.lastPhaseChangeTime := by
  unfold trackExtrema
  cases m.angle <;> cases m.yPosition <;> rfl

lemma updatePerspective_state (svc : ServiceState) (d : CameraPerspective) :
    (updatePerspective svc d).state = svc.state := by
  unfold updatePerspective
  split <;> rfl

lemma updatePerspective_frameCount_congr (svc : ServiceState) (d : CameraPerspective)
    (n : ℕ) :
    (updatePerspective { svc with frameCount := n } d).currentPerspective =
      (updatePerspective svc d).currentPerspective := by
  unfold updatePerspective
  split <;> rfl

lemma calibrationStep_formIssues (svc : ServiceState) (s : EngineState) (m : Measurement) :
    (calibrationStep svc s m).1.state.formIssues = s.formIssues := by
  unfold calibrationStep
  cases m.angle <;> cases m.yPosition <;> dsimp only <;> split <;> rfl

/-- C8 amended: form-issue checks run once per frame in every
post-calibration phase (`ready` as well as the active `down`/`up` phases) —
a new form issue can be appended to the current issue list exactly when the
smoothed perspective is `side`, the engine is out of calibration, no
repetition completes on that frame, and the debounce interval has elapsed;
in particular no issue is ever appended in front/unknown perspective, during
calibration, on completion frames, or inside the debounce window. -/
theorem formIssue_appended_only_side_noncalibrating
    (svc : ServiceState) (m : Measurement) (i : FormIssue)
    (hnew : i ∈ (detectRep svc m).1.state.formIssues)
    (hold : i ∉ svc.state.formIssues) :
    (updatePerspective svc m.detected).currentPerspective = .side ∧
      svc.state.phase ≠ .calibrating ∧
      (detectRep svc m).2 = none ∧
      ¬ (m.now - svc.state.lastPhaseChangeTime < 150) := by
  unfold detectRep at hnew ⊢
  dsimp only at hnew ⊢
  by_cases hcal : (trackHistories (updatePerspective
      { svc with frameCount := svc.frameCount + 1 } m.detected).state m).phase =
      ExercisePhase.calibrating
  · rw [if_pos hcal] at hnew
    rw [calibrationStep_formIssues, trackHistories_formIssues, updatePerspective_state] at hnew
    exact absurd hnew hold
  · rw [if_neg hcal] at hnew ⊢
    have hold2 : i ∉ (trackExtrema (trackHistories (updatePerspective
        { svc with frameCount := svc.frameCount + 1 } m.detected).state m) m).formIssues := by
      rw [trackExtrema_formIssues, trackHistories_formIssues, updatePerspective_state]
      exact hold
    obtain ⟨hside, hnone, hdeb⟩ := checkRepCompletion_new_issue _ m i hnew hold2
    refine ⟨?_, ?_, hnone, ?_⟩
    · rw [← updatePerspective_frameCount_congr svc m.detected (svc.frameCount + 1)]
      exact hside
    · intro hc
      apply hcal
      rw [trackHistories_phase, updatePerspective_state]
      exact hc
    · dsimp only at hdeb
      rw [trackExtrema_lastChange, trackHistories_lastChange, updatePerspective_state] at hdeb
      exact hdeb

/-- C8 counterexample: a side-view push-up service sitting in the `ready`
phase — no repetition in progress — still appends an alignment form issue
for a poorly aligned frame, contradicting the claim that form-issue checks
run only while a repetition is in progress (the active phase). -/
theorem formIssue_in_ready_phase_counterexample :
    svcC8x.state.phase = .ready ∧
      svcC8x.currentPerspective = .side ∧
      alignmentIssue "moderate" ∈ (detectRep svcC8x mC8x).1.state.formIssues ∧
      alignmentIssue "moderate" ∉ svcC8x.state.formIssues := by
  decide

/-- C8 witness: the amended theorem applied to the concrete ready-phase
side-view frame that appends the alignment issue. -/
theorem formIssue_appended_only_side_noncalibrating_witness :
    (updatePerspective svcC8x mC8x.detected).currentPerspective = .side ∧
      svcC8x.state.phase ≠ .calibrating ∧
      (detectRep svcC8x mC8x).2 = none ∧
      ¬ (mC8x.now - svcC8x.state.lastPhaseChangeTime < 150) :=
  formIssue_appended_only_side_noncalibrating svcC8x mC8x (alignmentIssue "moderate")
    (by decide) (by decide)

/- ===== C1 ===== -/

/-- C1 counterexample: a front-view push-up repetition with vertical extrema
0 and 40.  The claim's formula (ideal extrema delta
`|upThreshold - downThreshold| = 0.3` of the front position thresholds)
clamps `100 × 40 / 0.3` to 100, but `calculateROM` divides by the fixed
`expectedRange = 80` and reports 50. -/
theorem calculateROM_front_spec_mismatch_counterexample :
    romSpecC1 pushupsTh .front sC1 = 100 ∧
      calculateROM "pushups" .front sC1 = 50 := by
  decide

/-- C1 amended: for every supported exercise the reported range of motion is
`clamp(100 × |maxAngle - minAngle| / |upAngle - downAngle|, 0, 100)` in side
view; in front view it is `clamp(100 × (maxY - minY) / 80, 0, 100)` with the
fixed expected range 80 (not the front thresholds; 0 if no vertical sample
was recorded); with unknown perspective it is the constant 70. -/
theorem calculateROM_formula (e : ExerciseType) (s : EngineState) :
    calculateROM e.str .side s =
        min 100 (max 0 (100 * |s.maxAngle - s.minAngle| /
          |(thresholdsOf e).side.upAngle - (thresholdsOf e).side.downAngle|)) ∧
      calculateROM e.str .front s =
        (match s.minY with
          | none => 0
          | some mn => min 100 (max 0 (100 * (s.maxY - mn) / 80))) ∧
      calculateROM e.str .unknown s = 70 := by
  have hmm : ∀ x d : ℚ, min 100 (max 0 (x / d * 100)) = min 100 (max 0 (100 * x / d)) := by
    intro x d
    congr 2
    ring
  cases e <;>
    exact ⟨hmm _ _,
      by
        show (match s.minY with
          | none => (0:ℚ)
          | some mn => min 100 (max 0 ((s.maxY - mn) / 80 * 100))) = _
        cases s.minY with
        | none => rfl
        | some mn => exact hmm _ _,
      rfl⟩

/- ===== C9 and C5 ===== -/

/-- C9: `calculateAngle` is symmetric in its two endpoint arguments: the
raw arctangent difference flips sign when the endpoints swap, and the
absolute value and the 360-degree fold are unaffected. -/
theorem calculateAngle_symm (p1 p2 p3 : Keypoint) :
    calculateAngle p1 p2 p3 = calculateAngle p3 p2 p1 := by
  unfold calculateAngle
  dsimp only
  set A := atan2 ((p3.y:ℝ) - (p2.y:ℝ)) ((p3.x:ℝ) - (p2.x:ℝ)) with hA
  set B := atan2 ((p1.y:ℝ) - (p2.y:ℝ)) ((p1.x:ℝ) - (p2.x:ℝ)) with hB
  have h : |(B - A) * 180 / Real.pi| = |(A - B) * 180 / Real.pi| := by
    rw [show (B - A) * 180 / Real.pi = -((A - B) * 180 / Real.pi) by ring, abs_neg]
  rw [h]

lemma arg_smul_mk (c x y : ℝ) (hc : 0 < c) :
    Complex.arg ⟨c * x, c * y⟩ = Complex.arg ⟨x, y⟩ := by
  have hmul : (⟨c * x, c * y⟩ : ℂ) = (c : ℂ) * ⟨x, y⟩ := by
    apply Complex.ext <;> simp [Complex.mul_re, Complex.mul_im]
  rw [hmul]
  exact Complex.arg_real_mul _ hc

/-- When the vertex lies strictly between the two endpoints (a perfectly
straight chain), the two direction vectors are antiparallel, their arguments
differ by exactly π, and `calculateAngle` returns exactly 180°. -/
lemma calculateAngle_of_vertexBetween (p1 p2 p3 : Keypoint)
    (hb : VertexBetween p1 p2 p3) : calculateAngle p1 p2 p3 = 180 := by
  obtain ⟨t, ht0, ht1, hne, hx, hy⟩ := hb
  have q3x : p3.x - p2.x = (1 - t) * (p3.x - p1.x) := by rw [hx]; ring
  have q3y : p3.y - p2.y = (1 - t) * (p3.y - p1.y) := by rw [hy]; ring
  have q1x : p1.x - p2.x = t * -(p3.x - p1.x) := by rw [hx]; ring
  have q1y : p1.y - p2.y = t * -(p3.y - p1.y) := by rw [hy]; ring
  have r3x : (p3.x:ℝ) - (p2.x:ℝ) = ((1 - t : ℚ):ℝ) * ((p3.x:ℝ) - (p1.x:ℝ)) := by
    exact_mod_cast congrArg (fun q : ℚ => (q : ℝ)) q3x
  have r3y : (p3.y:ℝ) - (p2.y:ℝ) = ((1 - t : ℚ):ℝ) * ((p3.y:ℝ) - (p1.y:ℝ)) := by
    exact_mod_cast congrArg (fun q : ℚ => (q : ℝ)) q3y
  have r1x : (p1.x:ℝ) - (p2.x:ℝ) = ((t : ℚ):ℝ) * -((p3.x:ℝ) - (p1.x:ℝ)) := by
    exact_mod_cast congrArg (fun q : ℚ => (q : ℝ)) q1x
  have r1y : (p1.y:ℝ) - (p2.y:ℝ) = ((t : ℚ):ℝ) * -((p3.y:ℝ) - (p1.y:ℝ)) := by
    exact_mod_cast congrArg (fun q : ℚ => (q : ℝ)) q1y
  have ht0R : (0:ℝ) < (t:ℝ) := by exact_mod_cast ht0
  have ht1R : (t:ℝ) < 1 := by exact_mod_cast ht1
  have hz : (⟨(p3.x:ℝ) - (p1.x:ℝ), (p3.y:ℝ) - (p1.y:ℝ)⟩ : ℂ) ≠ 0 := by
    intro h0
    rw [Complex.ext_iff] at h0
    simp only [Complex.zero_re, Complex.zero_im, sub_eq_zero] at h0
    rcases hne with h | h
    · exact h (by exact_mod_cast h0.1.symm)
    · exact h (by exact_mod_cast h0.2.symm)
  have hAval : atan2 ((p3.y:ℝ) - (p2.y:ℝ)) ((p3.x:ℝ) - (p2.x:ℝ)) =
      Complex.arg ⟨(p3.x:ℝ) - (p1.x:ℝ), (p3.y:ℝ) - (p1.y:ℝ)⟩ := by
    rw [atan2, r3x, r3y]
    exact arg_smul_mk _ _ _ (by push_cast; linarith [ht1R])
  have hBval : atan2 ((p1.y:ℝ) - (p2.y:ℝ)) ((p1.x:ℝ) - (p2.x:ℝ)) =
      Complex.arg (-(⟨(p3.x:ℝ) - (p1.x:ℝ), (p3.y:ℝ) - (p1.y:ℝ)⟩ : ℂ)) := by
    rw [atan2, r1x, r1y]
    have : (-(⟨(p3.x:ℝ) - (p1.x:ℝ), (p3.y:ℝ) - (p1.y:ℝ)⟩ : ℂ)) =
        (⟨-((p3.x:ℝ) - (p1.x:ℝ)), -((p3.y:ℝ) - (p1.y:ℝ))⟩ : ℂ) := by
      apply Complex.ext <;> simp
    rw [this]
    exact arg_smul_mk _ _ _ (by linarith [ht0R])
  unfold calculateAngle
  dsimp only
  rw [hAval, hBval]
  have habs : |(Complex.arg ⟨(p3.x:ℝ) - (p1.x:ℝ), (p3.y:ℝ) - (p1.y:ℝ)⟩ -
      Complex.arg (-(⟨(p3.x:ℝ) - (p1.x:ℝ), (p3.y:ℝ) - (p1.y:ℝ)⟩ : ℂ))) * 180 / Real.pi| =
      180 := by
    rw [abs_div, abs_mul, abs_arg_sub_arg_neg hz]
    rw [abs_of_nonneg (by norm_num : (0:ℝ) ≤ 180), abs_of_pos Real.pi_pos]
    field_simp
  rw [habs]
  norm_num

/-- C5 amended: for every three input points `calculateAngle` returns a
value in [0, 180] (the raw arctangent difference lies in (-360°, 360°) and
is magnitude-folded when it exceeds 180°), and for perfectly collinear
points *with the vertex strictly between the endpoints* it returns exactly
180°.  (For collinear points with both endpoints on the same side of the
vertex it returns 0, see the counterexample.) -/
theorem calculateAngle_range_and_straight_chain (p1 p2 p3 : Keypoint) :
    0 ≤ calculateAngle p1 p2 p3 ∧ calculateAngle p1 p2 p3 ≤ 180 ∧
      (VertexBetween p1 p2 p3 → calculateAngle p1 p2 p3 = 180) := by
  have hpi := Real.pi_pos
  have h180 := calculateAngle_of_vertexBetween p1 p2 p3
  unfold calculateAngle
  dsimp only
  set A := atan2 ((p3.y:ℝ) - (p2.y:ℝ)) ((p3.x:ℝ) - (p2.x:ℝ)) with hA
  set B := atan2 ((p1.y:ℝ) - (p2.y:ℝ)) ((p1.x:ℝ) - (p2.x:ℝ)) with hB
  have hA1 : A ≤ Real.pi := by rw [hA, atan2]; exact Complex.arg_le_pi _
  have hA2 : -Real.pi < A := by rw [hA, atan2]; exact Complex.neg_pi_lt_arg _
  have hB1 : B ≤ Real.pi := by rw [hB, atan2]; exact Complex.arg_le_pi _
  have hB2 : -Real.pi < B := by rw [hB, atan2]; exact Complex.neg_pi_lt_arg _
  have habs : |(A - B) * 180 / Real.pi| = |A - B| * 180 / Real.pi := by
    rw [abs_div, abs_mul, abs_of_pos hpi, abs_of_nonneg (by norm_num : (0:ℝ) ≤ 180)]
  have hlt : |A - B| < 2 * Real.pi := abs_lt.mpr ⟨by linarith, by linarith⟩
  have hlt360 : |(A - B) * 180 / Real.pi| < 360 := by
    rw [habs, div_lt_iff₀ hpi]
    nlinarith [hlt]
  have hnonneg : 0 ≤ |(A - B) * 180 / Real.pi| := abs_nonneg _
  by_cases hgt : |(A - B) * 180 / Real.pi| > 180
  · rw [if_pos hgt]
    refine ⟨by linarith, by linarith, fun hb => ?_⟩
    have h2 := h180 hb
    unfold calculateAngle at h2
    dsimp only at h2
    rw [← hA, ← hB, if_pos hgt] at h2
    linarith
  · rw [if_neg hgt]
    push_neg at hgt
    refine ⟨hnonneg, hgt, fun hb => ?_⟩
    have h2 := h180 hb
    unfold calculateAngle at h2
    dsimp only at h2
    rw [← hA, ← hB] at h2
    rwa [if_neg (by push_neg; exact hgt)] at h2

/-- C5 counterexample: the points (1,0), (0,0), (2,0) are perfectly
collinear, yet `calculateAngle` returns 0, not 180 — the claim's collinear
clause fails when both endpoints lie on the same side of the vertex. -/
theorem calculateAngle_collinear_same_side_counterexample :
    CollinearPts kC5a kC5v kC5b ∧ calculateAngle kC5a kC5v kC5b = 0 ∧
      calculateAngle kC5a kC5v kC5b ≠ 180 := by
  have hval : calculateAngle kC5a kC5v kC5b = 0 := by
    unfold calculateAngle
    simp only [kC5a, kC5v, kC5b]
    norm_num
    rw [atan2_zero_of_pos (by norm_num : (0:ℝ) ≤ 2),
      atan2_zero_of_pos (by norm_num : (0:ℝ) ≤ 1)]
    norm_num
  refine ⟨by unfold CollinearPts; decide, hval, by rw [hval]; norm_num⟩

/-- C5 witness: the vertex (0,0) lies strictly between (1,0) and (-1,0)
and the angle is exactly 180°. -/
theorem calculateAngle_range_and_straight_chain_witness :
    VertexBetween kC5a kC5v kC5n ∧ calculateAngle kC5a kC5v kC5n = 180 := by
  have hb : VertexBetween kC5a kC5v kC5n :=
    ⟨1/2, by norm_num, by norm_num, by decide, by decide, by decide⟩
  exact ⟨hb, (calculateAngle_range_and_straight_chain kC5a kC5v kC5n).2.2 hb⟩

/- ===== C10 ===== -/

/-- C10 amended: `checkBodyAlignment` returns exactly 0 (the worst
alignment score) whenever the resolved shoulder, hip, or ankle part is
unavailable — i.e. both the left and the right keypoint of that part are
missing from the input or rejected by the confidence check.  The confidence
check itself, however, rejects a keypoint only when its score is *present,
nonzero and below 0.3* (JavaScript truthiness), so a keypoint with
confidence exactly 0 passes — see the counterexample. -/
theorem checkBodyAlignment_zero_when_unavailable
    (keypoints : List Keypoint)
    (h : (getKeypoint keypoints leftShoulderIdx <|> getKeypoint keypoints rightShoulderIdx) = none ∨
      (getKeypoint keypoints leftHipIdx <|> getKeypoint keypoints rightHipIdx) = none ∨
      (getKeypoint keypoints leftAnkleIdx <|> getKeypoint keypoints rightAnkleIdx) = none) :
    checkBodyAlignment keypoints = 0 := by
  unfold checkBodyAlignment
  rcases hs : (getKeypoint keypoints leftShoulderIdx <|> getKeypoint keypoints rightShoulderIdx)
    with _ | s <;>
  rcases hh : (getKeypoint keypoints leftHipIdx <|> getKeypoint keypoints rightHipIdx)
    with _ | hp <;>
  rcases ha : (getKeypoint keypoints leftAnkleIdx <|> getKeypoint keypoints rightAnkleIdx)
    with _ | ak <;>
  simp_all

/-- C10 witness: an empty keypoint list resolves no parts and scores 0. -/
theorem checkBodyAlignment_zero_when_unavailable_witness :
    checkBodyAlignment [] = 0 :=
  checkBodyAlignment_zero_when_unavailable [] (Or.inl rfl)

/-- C10 counterexample: all 17 keypoints carry confidence exactly 0 —
below the 0.3 floor — yet `checkBodyAlignment` does not return 0: the
JavaScript guard `keypoint.score && keypoint.score < 0.3` treats a zero
score as falsy, every keypoint passes, and the perfectly straight
shoulder–hip–ankle chain scores 100. -/
theorem checkBodyAlignment_zero_confidence_counterexample :
    kpsC10.get? leftShoulderIdx = some ⟨0, 0, some 0⟩ ∧
      (0:ℚ) < 3/10 ∧
      checkBodyAlignment kpsC10 = 100 := by
  have hang : calculateAngle ⟨0, 0, some 0⟩ ⟨1, 0, some 0⟩ ⟨2, 0, some 0⟩ = 180 := by
    unfold calculateAngle
    norm_num
    rw [atan2_zero_of_pos (by norm_num : (0:ℝ) ≤ 1),
      atan2_zero_of_neg (by norm_num : (-1:ℝ) < 0)]
    have hpi := Real.pi_ne_zero
    have h1 : (0 - Real.pi) * 180 / Real.pi = -180 := by field_simp; ring
    rw [h1]
    norm_num
  have hget : checkBodyAlignment kpsC10 =
      max 0 (100 - |180 - calculateAngle ⟨0, 0, some 0⟩ ⟨1, 0, some 0⟩ ⟨2, 0, some 0⟩| * 2) :=
    rfl
  refine ⟨rfl, by norm_num, ?_⟩
  rw [hget, hang]
  norm_num

/-- The no-unknown hypothesis of the C6 theorem is an invariant of the real
system: `updatePerspective` never pushes an `unknown` vote, so a window that
contains no `unknown` (as the fresh service's empty window does) never
acquires one. -/
lemma updatePerspective_no_unknown (svc : ServiceState) (d : CameraPerspective)
    (hinv : ∀ p ∈ svc.perspectiveHistory, p ≠ CameraPerspective.unknown) :
    ∀ p ∈ (updatePerspective svc d).perspectiveHistory, p ≠ CameraPerspective.unknown := by
  by_cases hd : d = CameraPerspective.unknown
  · rw [updatePerspective, if_pos hd]
    exact hinv
  · rw [updatePerspective_eq svc d hd]
    intro p hp
    dsimp only at hp
    have hp' : p ∈ svc.perspectiveHistory ++ [d] := by
      by_cases hl : (svc.perspectiveHistory ++ [d]).length > 15
      · rw [if_pos hl] at hp
        exact List.mem_of_mem_drop hp
      · rwa [if_neg hl] at hp
    rcases List.mem_append.mp hp' with h | h
    · exact hinv p h
    · rw [List.mem_singleton.mp h]
      exact hd
